import Mathlib

/-!
Verification development for the InstallationInstructionAgent repository.

The repository has two pipelines: a daily-update classifier that turns
free-text status updates into structured spreadsheet row changes
(sheets_agent.py, sheets_tools.py), and an installation-guide generator
that renders model output into a document (research_agent.py,
docx_generator.py).  This file gives a shallow embedding of the pure
post-processing, validation and rendering logic of those modules and
proves the specification claims about them.

Modelling conventions:
  * Python strings are Lean `String` (sequences of unicode scalar values).
  * Python `str.lower`/`str.upper` are modelled by the ASCII case maps
    `Char.toLower`/`Char.toUpper`; every keyword the code matches on is
    ASCII, so the embedding agrees with CPython on all inputs that matter.
  * Python dictionaries holding JSON-derived row data are association
    lists `List (String × PyVal)`; insertion replaces the first existing
    binding in place (exactly CPython's dict update order semantics).
  * `datetime.now()` is an abstract day number `today : Int`;
    `timedelta(days = k)` is `+ k`; `strftime("%m/%d/%Y")` is abstracted
    by the injective encoding `fmtDate` (the claims only speak about which
    day a formatted date denotes, never about the rendered text).
  * Python exceptions in otherwise pure code are modelled by `Option` /
    `Except` results.
-/

/-- Whether the char list `n` is an initial segment of `h`
(char-by-char comparison). -/
def leadMatch : List Char → List Char → Bool
  | [], _ => true
  | _ :: _, [] => false
  | a :: n, b :: h => a == b && leadMatch n h

/-- Substring occurrence test on char lists; `hasSub n h` models the
Python expression `n in h` for strings. -/
def hasSub (n : List Char) : List Char → Bool
  | [] => n.isEmpty
  | c :: h => leadMatch n (c :: h) || hasSub n h

/-- Python `needle in hay` for strings. -/
def pyIn (needle hay : String) : Bool :=
  hasSub needle.toList hay.toList

/-- Python `any(word in hay for word in ws)`. -/
def containsAnyWord (hay : String) (ws : List String) : Bool :=
  ws.any (fun w => pyIn w hay)

/-- Python `str.lower` (ASCII case mapping, see header). -/
def pyLower (s : String) : String :=
  String.mk (s.toList.map Char.toLower)

/-- Python `str.upper` (ASCII case mapping, see header). -/
def pyUpper (s : String) : String :=
  String.mk (s.toList.map Char.toUpper)

/-- Python `str.strip()` with no argument: remove whitespace from both
ends. -/
def pyStrip (s : String) : String :=
  String.mk (((s.toList.dropWhile Char.isWhitespace).reverse.dropWhile
    Char.isWhitespace).reverse)

/-- Python `str.lstrip(chars)`: remove the longest leading run of
characters belonging to the set `cs`. -/
def pyLstripSet (cs : List Char) (s : String) : String :=
  String.mk (s.toList.dropWhile (fun c => cs.any (fun x => x == c)))

/-- A Python value as it appears in the JSON-derived row-change
dictionaries: a string, a number, a boolean, or `None`. -/
inductive PyVal where
  | str (s : String)
  | num (q : ℚ)
  | bool (b : Bool)
  | null
deriving DecidableEq, Repr

/-- Python truthiness of a `PyVal`. -/
def pyTruthy : PyVal → Bool
  | PyVal.str s => !(s == "")
  | PyVal.num q => !(q == 0)
  | PyVal.bool b => b
  | PyVal.null => false

/-- Truthiness of `d.get(k)`: `None` (absent) is falsy. -/
def truthyO : Option PyVal → Bool
  | none => false
  | some v => pyTruthy v

/-- Association-list lookup of the first binding of `k`;
models Python `d.get(k)` (keys are unique by construction). -/
def assocGet {β : Type} : List (String × β) → String → Option β
  | [], _ => none
  | (k', v) :: t, k => if k' == k then some v else assocGet t k

/-- Association-list update: replace the first binding of `k` in place,
or append a new binding; models Python `d[k] = v`. -/
def assocSet {β : Type} : List (String × β) → String → β → List (String × β)
  | [], k, v => [(k, v)]
  | (k', v') :: t, k, v =>
    if k' == k then (k', v) :: t else (k', v') :: assocSet t k v

/-- A Python dict mapping column names to values. -/
abbrev PyDict := List (String × PyVal)

/-! ## sheets_agent.py: date inference (`SheetsAgent.infer_dates`) -/

/-- Abstraction of `start_date.strftime("%m/%d/%Y")`: the formatted text
of the given day number.  Injective, so two formatted dates are equal
exactly when the underlying days are. -/
def fmtDate (day : Int) : String :=
  "%m/%d/%Y of day " ++ toString day

/-- `SheetsAgent.infer_dates` (sheets_agent.py lines 143-174), with
`datetime.now()` abstracted as the day number `today` and the two
returned `strftime` strings abstracted as the day numbers they denote. -/
def infer_dates (task_description status : String) (today : Int) : Int × Int :=
  if status == "Complete" then
    if containsAnyWord (pyLower task_description)
        ["research", "analysis", "study"] then
      (today - 3, today)
    else if containsAnyWord (pyLower task_description)
        ["implement", "build", "create", "develop"] then
      (today - 5, today)
    else
      (today - 1, today)
  else if status == "In Progress" then
    (today - 1, today + 2)
  else if status == "Upcoming" then
    (today + 1, today + 5)
  else
    (today, today + 7)

/-- The date rule exactly as the specification's table states it
(spec.md §4.1, claim C4), rows checked top to bottom. -/
def date_claim_table (task status : String) (today : Int) : Int × Int :=
  if status == "Complete" &&
      containsAnyWord (pyLower task) ["research", "analysis", "study"] then
    (today - 3, today)
  else if status == "Complete" &&
      containsAnyWord (pyLower task) ["implement", "build", "create", "develop"] then
    (today - 5, today)
  else if status == "Complete" then
    (today - 1, today)
  else if status == "In Progress" then
    (today - 1, today + 2)
  else if status == "Upcoming" then
    (today + 1, today + 5)
  else
    (today, today + 7)

/-! ## sheets_agent.py: effort estimation (`SheetsAgent.estimate_effort`) -/

/-- Python's two-argument `min(a, b)`: `a` when `a <= b`, else `b`. -/
def pyMin (a b : ℚ) : ℚ := if a ≤ b then a else b

/-- The value of `base_effort` just before the final cap in
`SheetsAgent.estimate_effort` (sheets_agent.py lines 176-202): base 0.5,
complexity doubling, mutually exclusive task-type multiplier, then the
context overrides. -/
def effort_base (task_description updates_context : String) : ℚ :=
  let base : ℚ := 1 / 2
  let base :=
    if containsAnyWord (pyLower task_description)
        ["complex", "advanced", "comprehensive"] then base * 2 else base
  let base :=
    if containsAnyWord (pyLower task_description)
        ["research", "analysis"] then base * (3 / 2)
    else if containsAnyWord (pyLower task_description)
        ["implement", "build", "develop"] then base * 2
    else if containsAnyWord (pyLower task_description)
        ["review", "check", "read"] then base * (1 / 2)
    else base
  if pyIn "all day" (pyLower updates_context) then 1
  else if pyIn "few hours" (pyLower updates_context) then 1 / 4
  else if pyIn "morning" (pyLower updates_context) ||
      pyIn "afternoon" (pyLower updates_context) then 1 / 2
  else base

/-- `SheetsAgent.estimate_effort` (sheets_agent.py lines 176-203):
the heuristic value, capped at one person-day by `min(base_effort, 1.0)`. -/
def estimate_effort (task_description updates_context : String) : ℚ :=
  pyMin (effort_base task_description updates_context) 1

/-- The effort rule exactly as claim C3 states it: base 0.5, an
independent ×2 complexity factor, exactly one of the three task-type
factors in priority order, then the overrides, then the cap. -/
def effort_claim_rule (task_description updates_context : String) : ℚ :=
  let complexity : ℚ :=
    if containsAnyWord (pyLower task_description)
        ["complex", "advanced", "comprehensive"] then 2 else 1
  let taskType : ℚ :=
    if containsAnyWord (pyLower task_description)
        ["research", "analysis"] then 3 / 2
    else if containsAnyWord (pyLower task_description)
        ["implement", "build", "develop"] then 2
    else if containsAnyWord (pyLower task_description)
        ["review", "check", "read"] then 1 / 2
    else 1
  let stacked : ℚ := 1 / 2 * complexity * taskType
  let overridden : ℚ :=
    if pyIn "all day" (pyLower updates_context) then 1
    else if pyIn "few hours" (pyLower updates_context) then 1 / 4
    else if pyIn "morning" (pyLower updates_context) ||
        pyIn "afternoon" (pyLower updates_context) then 1 / 2
    else stacked
  pyMin overridden 1

/-! ## sheets_agent.py: change validation (`SheetsAgent.validate_changes`) -/

/-- A proposed row change as produced by the classifier
(spec.md §3 ProposedChange): an action, an optional row reference, the
partial row data, and free-text reasoning. -/
structure Change where
  action : String
  row_id : Option PyVal
  data : PyDict
  reasoning : String
deriving DecidableEq, Repr

/-- `change['data'].get('Task', '')` (sheets_agent.py line 217). -/
def task_desc_of (c : Change) : PyVal :=
  (assocGet c.data "Task").getD (PyVal.str "")

/-- `change['data'].get('Status', 'Upcoming')` (sheets_agent.py line 218). -/
def status_of (c : Change) : PyVal :=
  (assocGet c.data "Status").getD (PyVal.str "Upcoming")

/-- The string against which `infer_dates` compares the status value with
`==`.  A non-string status compares unequal to every status literal in
Python, exactly as the sentinel `""` does, so this view is
behaviour-preserving. -/
def statusKey : PyVal → String
  | PyVal.str s => s
  | _ => ""

/-- `infer_dates(task_desc, status)` as invoked from `validate_changes`
with the raw dictionary values.  A non-string task raises
`AttributeError` in `task_description.lower()` — but only in the
`status == "Complete"` branch, the only branch that reads the task text;
the other branches never evaluate it (sheets_agent.py lines 149-172). -/
def infer_dates_of (today : Int) (task status : PyVal) : Option (Int × Int) :=
  match task with
  | PyVal.str s => some (infer_dates s (statusKey status) today)
  | _ =>
    if statusKey status == "Complete" then none
    else some (infer_dates "" (statusKey status) today)

/-- `estimate_effort(task_desc, task_desc)` as invoked from
`validate_changes` (sheets_agent.py line 227): a non-string task always
raises, since the very first keyword test lowers the task text. -/
def estimate_effort_of (task : PyVal) : Option ℚ :=
  match task with
  | PyVal.str s => some (estimate_effort s s)
  | _ => none

/-- The date auto-fill step of `validate_changes` (sheets_agent.py lines
220-223): if either date is missing (falsy), derive both via
`infer_dates` and store them; `none` models a raised exception. -/
def fill_dates (today : Int) (c : Change) (d : PyDict) : Option PyDict :=
  if truthyO (assocGet d "Start Date") && truthyO (assocGet d "End Date") then
    some d
  else
    match infer_dates_of today (task_desc_of c) (status_of c) with
    | some pr =>
      some (assocSet (assocSet d "Start Date" (PyVal.str (fmtDate pr.1)))
        "End Date" (PyVal.str (fmtDate pr.2)))
    | none => none

/-- The effort auto-fill step of `validate_changes` (sheets_agent.py
lines 226-227). -/
def fill_effort (c : Change) (d : PyDict) : Option PyDict :=
  if truthyO (assocGet d "Effort") then some d
  else
    match estimate_effort_of (task_desc_of c) with
    | some q => some (assocSet d "Effort" (PyVal.num q))
    | none => none

/-- The priority defaulting step of `validate_changes` (sheets_agent.py
lines 230-231). -/
def fill_priority (d : PyDict) : PyDict :=
  if truthyO (assocGet d "Priority") then d
  else assocSet d "Priority" (PyVal.str "Medium")

/-- Processing of one retained change inside the `validate_changes` loop
(sheets_agent.py lines 216-233): fill dates, then effort, then priority,
each step reading the dictionary as left by the previous one. -/
def validate_one (today : Int) (c : Change) : Option Change :=
  match fill_dates today c c.data with
  | none => none
  | some d1 =>
    match fill_effort c d1 with
    | none => none
    | some d2 => some { c with data := fill_priority d2 }

/-- `SheetsAgent.validate_changes` (sheets_agent.py lines 205-235):
changes whose data lacks a truthy Task value are skipped, the rest are
processed in order; `none` models an exception escaping the loop. -/
def validate_changes (today : Int) : List Change → Option (List Change)
  | [] => some []
  | c :: rest =>
    if truthyO (assocGet c.data "Task") then
      match validate_one today c, validate_changes today rest with
      | some c', some rest' => some (c' :: rest')
      | _, _ => none
    else validate_changes today rest

/-- The single proposed change of the end-to-end scenario in claim C6. -/
def loginChange : Change :=
  { action := "create", row_id := none,
    data := [("Task", PyVal.str "Today I completed the login module"),
             ("Status", PyVal.str "Complete")],
    reasoning := "new work item" }

/-- The validated data claim C6 requires for `loginChange`: dates from
the Complete/no-keyword rule, the derived effort, default Medium
priority, appended in the order the code assigns them. -/
def loginExpectedData (today : Int) : PyDict :=
  [("Task", PyVal.str "Today I completed the login module"),
   ("Status", PyVal.str "Complete"),
   ("Start Date", PyVal.str (fmtDate (today - 1))),
   ("End Date", PyVal.str (fmtDate today)),
   ("Effort", PyVal.num (estimate_effort "Today I completed the login module"
     "Today I completed the login module")),
   ("Priority", PyVal.str "Medium")]

/-- The validated form of `loginChange`. -/
def loginValidated (today : Int) : Change :=
  { action := "create", row_id := none, data := loginExpectedData today,
    reasoning := "new work item" }

/-- A change with no Task value (used to exercise the drop branch). -/
def tasklessChange : Change :=
  { action := "update", row_id := some (PyVal.num 1),
    data := [("Workstream", PyVal.str "W")], reasoning := "" }

/-- A fully-populated change (no auto-filling needed). -/
def docsChange : Change :=
  { action := "create", row_id := none,
    data := [("Task", PyVal.str "write docs"),
             ("Start Date", PyVal.str "01/01/2025"),
             ("End Date", PyVal.str "01/02/2025"),
             ("Effort", PyVal.num 1),
             ("Priority", PyVal.str "High")], reasoning := "" }

/-- A change with a Task but no Status and no other fields. -/
def sprintChange : Change :=
  { action := "create", row_id := none,
    data := [("Task", PyVal.str "plan the next sprint")], reasoning := "" }

/-- The data `validate_changes` produces for `sprintChange` at day 0:
since Status is absent, the Upcoming date rule applies. -/
def sprintValidatedData : PyDict :=
  [("Task", PyVal.str "plan the next sprint"),
   ("Start Date", PyVal.str (fmtDate 1)),
   ("End Date", PyVal.str (fmtDate 5)),
   ("Effort", PyVal.num (estimate_effort "plan the next sprint"
     "plan the next sprint")),
   ("Priority", PyVal.str "Medium")]

/-! ## docx_generator.py: markdown rendering

`_add_run_with_markdown` splits a line with
`re.split(r'(\**.*?\**)', text)`.  Note the pattern: `\**` is "zero or
more literal asterisks" (the backslash escapes only the first `*`), not
an escaped `**` marker.  The resulting engine behaviour, which the
definitions below reproduce exactly, is:

  * at a position holding `*`, the greedy leading `\**` eats the whole
    asterisk run, the lazy `.*?` and the trailing `\**` match empty, so
    the match is exactly that asterisk run;
  * at a position holding any other character the whole pattern matches
    empty; Python (3.7+) then forbids a second empty match at the same
    position, so the engine backtracks into a non-empty match: `.*?` is
    forced to eat exactly one character and the greedy trailing `\**`
    then eats the following asterisk run;
  * at end of input a final empty match is produced.

Matches are contiguous and start at position 0, so `re.split` returns
the empty string before, between and after every captured group. -/

/-- Length of the leading run of `*` characters. -/
def starCount : List Char → Nat
  | c :: t => if c == '*' then starCount t + 1 else 0
  | [] => 0

/-- The list of groups captured by successive matches of
`(\**.*?\**)` (fuelled for structural recursion; each step consumes at
least one character, plus the final empty match). -/
def boldMatchesF : Nat → List Char → List (List Char)
  | 0, _ => []
  | _ + 1, [] => [[]]
  | fuel + 1, c :: t =>
    if c == '*' then
      (c :: t.take (starCount t)) :: boldMatchesF fuel (t.drop (starCount t))
    else
      [] :: (c :: t.take (starCount t)) :: boldMatchesF fuel (t.drop (starCount t))

/-- All groups captured over the whole input. -/
def boldMatches (cs : List Char) : List (List Char) :=
  boldMatchesF (cs.length + 1) cs

/-- `re.split(r'(\**.*?\**)', text)`: the (always empty) text before the
first match, then each captured group followed by the (always empty)
text up to the next match. -/
def bold_split (text : String) : List String :=
  "" :: (boldMatches text.toList).foldr (fun g acc => String.mk g :: "" :: acc) []

/-- A text run of the generated document: bold flag and text. -/
structure Run where
  bold : Bool
  text : String
deriving DecidableEq, Repr

/-- Python `s.startswith(pre)` (by code points). -/
def strLeads (pre s : String) : Bool :=
  leadMatch pre.toList s.toList

/-- Python `s.endswith(suf)` (by code points). -/
def strTrails (suf s : String) : Bool :=
  leadMatch suf.toList.reverse s.toList.reverse

/-- Python `s[n:]` (by code points). -/
def strDrop (s : String) (n : Nat) : String :=
  String.mk (s.toList.drop n)

/-- Python `s[:-n]` for `n ≤ len(s)` (by code points). -/
def strDropRight (s : String) (n : Nat) : String :=
  String.mk ((s.toList.reverse.drop n).reverse)

/-- `_add_run_with_markdown` (docx_generator.py lines 4-21): the run
sequence appended to the paragraph — parts both starting and ending with
`**` become bold runs with the `[2:-2]` slice as text, everything else a
plain run. -/
def add_run_with_markdown (text : String) : List Run :=
  (bold_split text).map (fun part =>
    if strLeads "**" part && strTrails "**" part then
      { bold := true, text := strDropRight (strDrop part 2) 2 }
    else
      { bold := false, text := part })

/-- A document element emitted by `generate_document_from_markdown`. -/
inductive DocElem where
  | heading (text : String) (level : Nat)
  | bulletItem (runs : List Run)
  | numberItem (runs : List Run)
  | para (runs : List Run)
deriving DecidableEq, Repr

/-- Python's two-argument `min` on naturals. -/
def pyMinNat (a b : Nat) : Nat := if a ≤ b then a else b

/-- Python `s.split('\n')` (list of lines, keeping empty pieces). -/
def splitOnChar (sep : Char) : List Char → List (List Char)
  | [] => [[]]
  | c :: t =>
    let r := splitOnChar sep t
    if c == sep then [] :: r
    else
      match r with
      | h :: t' => (c :: h) :: t'
      | [] => [[c]]

/-- Python `markdown_content.split('\n')`. -/
def pySplitLines (s : String) : List String :=
  (splitOnChar '\n' s.toList).map String.mk

/-- `re.match(r'^\d+\.\s', stripped_line)` succeeds: one or more leading
digits, then a dot, then one whitespace character (`\s` modelled by
`Char.isWhitespace`; stripped lines cannot contain a newline anyway). -/
def numListHead (s : String) : Bool :=
  let l := s.toList
  let ds := l.takeWhile Char.isDigit
  !ds.isEmpty &&
    (match l.drop ds.length with
     | c :: w :: _ => c == '.' && w.isWhitespace
     | _ => false)

/-- `re.sub(r'^\d+\.\s', '', stripped_line)` under a successful match:
remove the digits, the dot and the single whitespace character. -/
def numListRemove (s : String) : String :=
  let l := s.toList
  let ds := l.takeWhile Char.isDigit
  String.mk (l.drop (ds.length + 2))

/-- The body of the line loop of `generate_document_from_markdown`
(docx_generator.py lines 49-73): classify the stripped line as heading,
bullet item, numbered item, plain paragraph, or blank (skipped). -/
def classify_line (line : String) : List DocElem :=
  let stripped_line := pyStrip line
  if strLeads "#" stripped_line then
    [DocElem.heading (pyStrip (pyLstripSet ['#', ' '] stripped_line))
      (pyMinNat (stripped_line.length - (pyLstripSet ['#'] stripped_line).length) 4)]
  else if strLeads "* " stripped_line || strLeads "- " stripped_line then
    [DocElem.bulletItem (add_run_with_markdown (strDrop stripped_line 2))]
  else if numListHead stripped_line then
    [DocElem.numberItem (add_run_with_markdown (numListRemove stripped_line))]
  else if !(stripped_line == "") then
    [DocElem.para (add_run_with_markdown stripped_line)]
  else []

/-- `generate_document_from_markdown` (docx_generator.py lines 41-76),
docx branch, abstracted as the emitted element stream: the level-0 title
heading followed by one element per classified line. -/
def generate_document_from_markdown (title markdown_content : String) : List DocElem :=
  DocElem.heading title 0 :: (pySplitLines markdown_content).flatMap classify_line

/-- Count of leading `#` characters of a line, as claim C7 words the
heading level. -/
def leadingHashes (s : String) : Nat :=
  (s.toList.takeWhile (fun c => c == '#')).length

/-! ## sheets_tools.py: GoogleSheetsManager -/

/-- Python `str(value)` for dictionary values written into sheet cells
(the exact number formatting is irrelevant to the claims). -/
def pyStr : PyVal → String
  | PyVal.str s => s
  | PyVal.num q => toString q
  | PyVal.bool b => if b then "True" else "False"
  | PyVal.null => "None"

/-- Python `int(s)` on a string: optional sign and decimal digits after
stripping whitespace; `none` models a raised `ValueError`. -/
def pyParseInt (s : String) : Option Int :=
  let l := (pyStrip s).toList
  let sgn : Int :=
    match l with
    | c :: _ => if c == '-' then -1 else 1
    | [] => 1
  let l1 : List Char :=
    match l with
    | c :: t => if c == '-' || c == '+' then t else l
    | [] => []
  if l1.isEmpty || !(l1.all Char.isDigit) then none
  else
    some (sgn * l1.foldl (fun a c => a * 10 + ((c.toNat : Int) - ('0'.toNat : Int))) 0)

/-- Python `int(value)` as applied to `change['row_id']`; `none` models a
raised `TypeError`/`ValueError`. -/
def pyToInt : PyVal → Option Int
  | PyVal.num q => some (Int.tdiv q.num (q.den : Int))
  | PyVal.str s => pyParseInt s
  | PyVal.bool b => some (if b then 1 else 0)
  | PyVal.null => none

/-- The live worksheet: row 1 is the header row, later rows the data —
gspread addresses cells 1-based. -/
abbrev Worksheet := List (List String)

/-- `worksheet.row_values(1)`. -/
def ws_header (ws : Worksheet) : List String := ws.headD []

/-- `worksheet.update_cell(row, col, value)` (1-based); a coordinate
outside the sheet leaves it unchanged (the remote error such a call
raises is caught and logged by the per-row handler in `_update_row`,
leaving the sheet unmodified, which this no-op reproduces). -/
def updateCell (ws : Worksheet) (row col : Nat) (v : String) : Worksheet :=
  match row, col with
  | r + 1, c + 1 =>
    match ws.get? r with
    | some rowVals => ws.set r (rowVals.set c v)
    | none => ws
  | _, _ => ws

/-- `GoogleSheetsManager._update_row` (sheets_tools.py lines 114-127):
headers are fetched once, then every data field whose name occurs in the
header row is written to the corresponding column of `row_num`. -/
def update_row (ws : Worksheet) (row_num : Nat) (data : PyDict) : Worksheet :=
  data.foldl (fun w kv =>
    match (ws_header ws).findIdx? (fun h => h == kv.1) with
    | some idx => updateCell w row_num (idx + 1) (pyStr kv.2)
    | none => w) ws

/-- `GoogleSheetsManager._add_new_row` (sheets_tools.py lines 129-144). -/
def add_new_row (ws : Worksheet) (data : PyDict) : Worksheet :=
  ws ++ [(ws_header ws).map (fun h => pyStr ((assocGet data h).getD (PyVal.str "")))]

/-- The manager state: `worksheet` is `none` exactly when no live
spreadsheet connection was established (development mode). -/
structure SheetsState where
  worksheet : Option Worksheet
deriving DecidableEq, Repr

/-- `GoogleSheetsManager.get_development_mode_status` (sheets_tools.py
lines 232-234): `self.worksheet is None`. -/
def get_development_mode_status (m : SheetsState) : Bool :=
  m.worksheet.isNone

/-- `GoogleSheetsManager._preview_csv_changes` (sheets_tools.py lines
146-161): the lines printed in development mode. -/
def preview_csv_changes (changes : List Change) : List String :=
  "\n=== DEVELOPMENT MODE: CSV CHANGES PREVIEW ===" ::
    changes.flatMap (fun change =>
      ("\nAction: " ++ pyUpper change.action) ::
      (if change.action == "update" && truthyO change.row_id then
        "Would update row " ++ pyStr (change.row_id.getD PyVal.null) ++ ":"
      else "Would add new row:") ::
      change.data.map (fun kv => "  " ++ kv.1 ++ ": " ++ pyStr kv.2))

/-- The live-mode loop of `write_changes_to_sheet` (sheets_tools.py
lines 95-106): updates and appends applied in order; a non-integer
`row_id` raises outside the per-row handlers, so it aborts the loop with
the rows written so far kept (first component `false`). -/
def apply_changes : Worksheet → List Change → Bool × Worksheet
  | ws, [] => (true, ws)
  | ws, change :: rest =>
    if change.action == "update" && truthyO change.row_id then
      match pyToInt (change.row_id.getD PyVal.null) with
      | some n => apply_changes (update_row ws (n + 1).toNat change.data) rest
      | none => (false, ws)
    else if change.action == "create" then
      apply_changes (add_new_row ws change.data) rest
    else apply_changes ws rest

/-- `GoogleSheetsManager.write_changes_to_sheet` (sheets_tools.py lines
78-112), as (returned bool, state after the call, printed lines): with
no worksheet it prints the development preview and returns success; with
a live worksheet it applies the changes, returning `false` when the
caught exception path is taken. -/
def write_changes_to_sheet (m : SheetsState) (changes : List Change)
    (existing_data : List PyDict) : Bool × SheetsState × List String :=
  match m.worksheet with
  | none =>
    (true, m,
      "Google Sheets not available. Changes would be applied to:" ::
        preview_csv_changes changes)
  | some ws0 =>
    match apply_changes ws0 changes with
    | (true, ws') => (true, { worksheet := some ws' }, [])
    | (false, ws') => (false, { worksheet := some ws' }, ["Error writing to sheet"])

/-! ## sheets_agent.py: response parsing (`parse_daily_updates`)

The service call itself is external I/O; the embedding models the pure
post-processing of the returned text (sheets_agent.py lines 99-119):
strip, remove code-fence markers, extract the brace-delimited block with
`re.search(r'\x7b.*\x7d', text, re.DOTALL)` (greedy, hence first `{` to
last `}`), `json.loads`, then `.get("changes", [])`.  `json.loads` is
modelled by a strict RFC 8259 parser with CPython's json specifics:
whitespace is space/tab/newline/return, leading zeros are rejected,
object keys are strings and duplicate keys keep the last value, control
characters below 0x20 must be escaped (`\uXXXX` surrogate-pair joining
is not modelled; no claim depends on it). -/

def quoteChar : Char := Char.ofNat 34

def backslashChar : Char := Char.ofNat 92

def lbraceChar : Char := Char.ofNat 123

def rbraceChar : Char := Char.ofNat 125

/-- JSON whitespace, as in CPython's json module. -/
def isJsonWs (c : Char) : Bool :=
  c == ' ' || c == '\t' || c == '\n' || c == '\r'

def skipWs (cs : List Char) : List Char := cs.dropWhile isJsonWs

/-- A parsed JSON value (numbers as exact rationals). -/
inductive Json where
  | null
  | bool (b : Bool)
  | num (q : ℚ)
  | str (s : String)
  | arr (elems : List Json)
  | obj (members : List (String × Json))

def hexVal (c : Char) : Option Nat :=
  if c.isDigit then some (c.toNat - '0'.toNat)
  else if 'a' ≤ c ∧ c ≤ 'f' then some (c.toNat - 'a'.toNat + 10)
  else if 'A' ≤ c ∧ c ≤ 'F' then some (c.toNat - 'A'.toNat + 10)
  else none

/-- Body of a JSON string after the opening quote: returns the decoded
string and the input after the closing quote. -/
def parseStringRest (fuel : Nat) (cs : List Char) (acc : List Char) :
    Option (String × List Char) :=
  match fuel with
  | 0 => none
  | fuel + 1 =>
    match cs with
    | [] => none
    | c :: rest =>
      if c == quoteChar then some (String.mk acc.reverse, rest)
      else if c == backslashChar then
        match rest with
        | [] => none
        | e :: rest2 =>
          if e == quoteChar then parseStringRest fuel rest2 (quoteChar :: acc)
          else if e == backslashChar then parseStringRest fuel rest2 (backslashChar :: acc)
          else if e == '/' then parseStringRest fuel rest2 ('/' :: acc)
          else if e == 'b' then parseStringRest fuel rest2 (Char.ofNat 8 :: acc)
          else if e == 'f' then parseStringRest fuel rest2 (Char.ofNat 12 :: acc)
          else if e == 'n' then parseStringRest fuel rest2 ('\n' :: acc)
          else if e == 'r' then parseStringRest fuel rest2 ('\r' :: acc)
          else if e == 't' then parseStringRest fuel rest2 ('\t' :: acc)
          else if e == 'u' then
            match rest2 with
            | h1 :: h2 :: h3 :: h4 :: rest3 =>
              match hexVal h1, hexVal h2, hexVal h3, hexVal h4 with
              | some a, some b, some c2, some d =>
                parseStringRest fuel rest3
                  (Char.ofNat (((a * 16 + b) * 16 + c2) * 16 + d) :: acc)
              | _, _, _, _ => none
            | _ => none
          else none
      else if c.toNat < 32 then none
      else parseStringRest fuel rest (c :: acc)

def digitsVal (ds : List Char) : Nat :=
  ds.foldl (fun a c => a * 10 + (c.toNat - '0'.toNat)) 0

def pow10 (n : Nat) : ℚ := (10 : ℚ) ^ n

/-- A JSON number: `-?(0|[1-9][0-9]*)(\.[0-9]+)?([eE][+-]?[0-9]+)?`. -/
def parseNumber (cs : List Char) : Option (ℚ × List Char) :=
  let negSplit : Bool × List Char :=
    match cs with
    | c :: t => if c == '-' then (true, t) else (false, cs)
    | [] => (false, cs)
  match negSplit.2 with
  | [] => none
  | d :: _ =>
    if !d.isDigit then none
    else
      let cs1 := negSplit.2
      let ds := cs1.takeWhile Char.isDigit
      if d == '0' && ds.length > 1 then none
      else
        let cs2 := cs1.drop ds.length
        let fracRes : Option (ℚ × List Char) :=
          match cs2 with
          | c :: t =>
            if c == '.' then
              let fs := t.takeWhile Char.isDigit
              if fs.isEmpty then none
              else some ((digitsVal fs : ℚ) / pow10 fs.length, t.drop fs.length)
            else some (0, cs2)
          | [] => some (0, [])
        match fracRes with
        | none => none
        | some (fq, cs3) =>
          let expRes : Option (Int × List Char) :=
            match cs3 with
            | c :: t =>
              if c == 'e' || c == 'E' then
                let sgnSplit : Int × List Char :=
                  match t with
                  | c2 :: t2 =>
                    if c2 == '+' then (1, t2)
                    else if c2 == '-' then (-1, t2)
                    else (1, t)
                  | [] => (1, t)
                let eds := sgnSplit.2.takeWhile Char.isDigit
                if eds.isEmpty then none
                else some (sgnSplit.1 * (digitsVal eds : Int), sgnSplit.2.drop eds.length)
              else some (0, cs3)
            | [] => some (0, [])
          match expRes with
          | none => none
          | some (e, cs4) =>
            let mag : ℚ := (digitsVal ds : ℚ) + fq
            let scaled : ℚ :=
              if 0 ≤ e then mag * pow10 e.toNat else mag / pow10 (-e).toNat
            some (if negSplit.1 then -scaled else scaled, cs4)

mutual

/-- One JSON value starting at `cs` (leading whitespace allowed);
returns the value and the remaining input. -/
def jsonVal (fuel : Nat) (cs : List Char) : Option (Json × List Char) :=
  match fuel with
  | 0 => none
  | fuel + 1 =>
    let cs1 := skipWs cs
    match cs1 with
    | [] => none
    | c :: rest =>
      if c == quoteChar then
        match parseStringRest (rest.length + 1) rest [] with
        | some (s, r) => some (Json.str s, r)
        | none => none
      else if c == lbraceChar then
        match skipWs rest with
        | c2 :: r2 =>
          if c2 == rbraceChar then some (Json.obj [], r2)
          else
            match jsonMembers fuel (skipWs rest) [] with
            | some (kvs, r') => some (Json.obj kvs, r')
            | none => none
        | [] => none
      else if c == '[' then
        match skipWs rest with
        | c2 :: r2 =>
          if c2 == ']' then some (Json.arr [], r2)
          else
            match jsonItems fuel (skipWs rest) [] with
            | some (xs, r') => some (Json.arr xs, r')
            | none => none
        | [] => none
      else if leadMatch "true".toList cs1 then some (Json.bool true, cs1.drop 4)
      else if leadMatch "false".toList cs1 then some (Json.bool false, cs1.drop 5)
      else if leadMatch "null".toList cs1 then some (Json.null, cs1.drop 4)
      else
        match parseNumber cs1 with
        | some (q, r) => some (Json.num q, r)
        | none => none

/-- The elements of a non-empty JSON array (after `[`), accumulated in
reverse. -/
def jsonItems (fuel : Nat) (cs : List Char) (acc : List Json) :
    Option (List Json × List Char) :=
  match fuel with
  | 0 => none
  | fuel + 1 =>
    match jsonVal fuel cs with
    | none => none
    | some (v, r) =>
      match skipWs r with
      | c :: r2 =>
        if c == ',' then jsonItems fuel r2 (v :: acc)
        else if c == ']' then some ((v :: acc).reverse, r2)
        else none
      | [] => none

/-- The members of a non-empty JSON object (after the opening brace);
duplicate keys overwrite in place, as in a Python dict. -/
def jsonMembers (fuel : Nat) (cs : List Char) (acc : List (String × Json)) :
    Option (List (String × Json) × List Char) :=
  match fuel with
  | 0 => none
  | fuel + 1 =>
    match skipWs cs with
    | c :: rest =>
      if c == quoteChar then
        match parseStringRest (rest.length + 1) rest [] with
        | some (k, r) =>
          match skipWs r with
          | c2 :: r2 =>
            if c2 == ':' then
              match jsonVal fuel r2 with
              | some (v, r3) =>
                match skipWs r3 with
                | c3 :: r4 =>
                  if c3 == ',' then jsonMembers fuel r4 (assocSet acc k v)
                  else if c3 == rbraceChar then some (assocSet acc k v, r4)
                  else none
                | [] => none
              | none => none
            else none
          | [] => none
        | none => none
      else none
    | [] => none

end

/-- `json.loads`: parse one value and require only whitespace to
follow.  The fuel bound exceeds the recursion depth any input of this
length can force. -/
def json_loads (s : String) : Option Json :=
  let cs := s.toList
  match jsonVal (4 * cs.length + 16) cs with
  | some (v, r) => if (skipWs r).isEmpty then some v else none
  | none => none

/-- Code-fence removal (sheets_agent.py lines 104-107): drop a leading
"```json" and a trailing "```". -/
def stripFenceMarks (t : String) : String :=
  let t1 := if strLeads "```json" t then strDrop t 7 else t
  if strTrails "```" t1 then strDropRight t1 3 else t1

def lastIdxOf (c : Char) (cs : List Char) : Option Nat :=
  match cs.reverse.findIdx? (fun x => x == c) with
  | some i => some (cs.length - 1 - i)
  | none => none

/-- `re.search(r'\x7b.*\x7d', text, re.DOTALL)` (sheets_agent.py lines
110-113): the leftmost match runs from the first `{` to the last `}`
(greedy), and exists exactly when some `}` stands after the first `{`. -/
def extractBraces (t : String) : Option String :=
  let cs := t.toList
  match cs.findIdx? (fun c => c == lbraceChar), lastIdxOf rbraceChar cs with
  | some i, some j =>
    if i < j then some (String.mk ((cs.drop i).take (j - i + 1))) else none
  | _, _ => none

/-- The text handed to `json.loads` (sheets_agent.py lines 101-113):
stripped response, fence markers removed, brace block extracted when
the pattern matches. -/
def candidate_json_text (response : String) : String :=
  let response_text := pyStrip response
  let response_text := stripFenceMarks response_text
  match extractBraces response_text with
  | some m => m
  | none => response_text

/-- `SheetsAgent.parse_daily_updates` (sheets_agent.py lines 99-119)
applied to the text returned by the service: the `Except.error` cases
model the wrapped exception `Error parsing daily updates: ...`
(`json.loads` failure, or `.get` called on a non-dict). -/
def parse_daily_updates (response : String) : Except String Json :=
  match json_loads (candidate_json_text response) with
  | some (Json.obj kvs) =>
    Except.ok ((assocGet kvs "changes").getD (Json.arr []))
  | some _ =>
    Except.error "Error parsing daily updates: response is not a JSON object"
  | none => Except.error "Error parsing daily updates: no valid JSON"

/-- The recovered JSON object of a parse result, when there is one. -/
def objOf : Option Json → Option (List (String × Json))
  | some (Json.obj kvs) => some kvs
  | _ => none

/-! ## Provider selection at agent construction -/

/-- The model/key pair the constructors hand to the LiteLLM wrapper. -/
structure ModelChoice where
  model_name : String
  api_key : String
deriving DecidableEq, Repr

/-- Truthiness of an `os.getenv(...)` result: the variable is set to a
non-empty value. -/
def truthyEnv : Option String → Bool
  | none => false
  | some s => !(s == "")

/-- Provider selection of `SheetsAgent.__init__` (sheets_agent.py lines
13-28): Google, then OpenAI, then Groq, else `ValueError`. -/
def sheets_agent_init (google openai groq : Option String) :
    Except String ModelChoice :=
  if truthyEnv google then
    Except.ok { model_name := "gemini/gemini-2.5-pro", api_key := google.getD "" }
  else if truthyEnv openai then
    Except.ok { model_name := "gpt-4o-mini", api_key := openai.getD "" }
  else if truthyEnv groq then
    Except.ok { model_name := "groq/llama3-8b-8192", api_key := groq.getD "" }
  else Except.error "No API key found for Google, OpenAI, or Groq."

/-- Provider selection of `ResearchAgent.__init__` (research_agent.py
lines 5-16): OpenAI, then Groq, else `ValueError`. -/
def research_agent_init (openai groq : Option String) :
    Except String ModelChoice :=
  if truthyEnv openai then
    Except.ok { model_name := "gpt-4o-mini", api_key := openai.getD "" }
  else if truthyEnv groq then
    Except.ok { model_name := "groq/llama3-8b-8192", api_key := groq.getD "" }
  else Except.error "No API key found for OpenAI or Groq."

/-- Whether an `Except` result is the error case. -/
def isErr {ε α : Type} : Except ε α → Bool
  | Except.error _ => true
  | Except.ok _ => false

theorem effort_base_pos (t c : String) : 0 < effort_base t c := by
  simp only [effort_base]
  split_ifs <;> norm_num

theorem estimate_effort_pos (t c : String) : 0 < estimate_effort t c := by
  unfold estimate_effort pyMin
  split_ifs with h
  · exact effort_base_pos t c
  · norm_num

theorem estimate_effort_le_one (t c : String) : estimate_effort t c ≤ 1 := by
  unfold estimate_effort pyMin
  split_ifs with h
  · exact h
  · exact le_rfl

/-- C3: for every task description and context, `estimate_effort` returns
exactly the value prescribed by the claim's rule (base 0.5, complexity
doubling, one task-type multiplier by priority, context overrides, cap),
and that value always lies in the interval (0, 1]. -/
theorem c3_estimate_effort_rule (t c : String) :
    estimate_effort t c = effort_claim_rule t c ∧
    0 < estimate_effort t c ∧ estimate_effort t c ≤ 1 := by
  refine ⟨?_, estimate_effort_pos t c, estimate_effort_le_one t c⟩
  simp only [estimate_effort, effort_claim_rule, effort_base]
  congr 1
  split_ifs <;> ring

/-- C4: for every task description, status and reference day `today`,
`infer_dates` returns exactly the (start, end) pair given by the
specification's date table, and in particular the end date is `today`
whenever the status is Complete. -/
theorem c4_infer_dates_rule (task status : String) (today : Int) :
    infer_dates task status today = date_claim_table task status today ∧
    (infer_dates task "Complete" today).2 = today := by
  constructor
  · unfold infer_dates date_claim_table
    cases hc : status == "Complete" <;>
      cases hr : containsAnyWord (pyLower task) ["research", "analysis", "study"] <;>
      cases hi : containsAnyWord (pyLower task)
        ["implement", "build", "create", "develop"] <;>
      simp [hc, hr, hi]
  · unfold infer_dates
    simp only [beq_self_eq_true, if_true]
    split_ifs <;> rfl

theorem assocGet_assocSet_self {β : Type} (d : List (String × β)) (k : String) (v : β) :
    assocGet (assocSet d k v) k = some v := by
  induction d with
  | nil => simp [assocGet, assocSet]
  | cons hd t ih =>
    obtain ⟨k', v'⟩ := hd
    by_cases h : k' = k
    · subst h
      simp [assocGet, assocSet]
    · simp [assocGet, assocSet, h, ih]

theorem assocGet_assocSet_ne {β : Type} (d : List (String × β)) (k k' : String) (v : β)
    (h : k' ≠ k) : assocGet (assocSet d k v) k' = assocGet d k' := by
  induction d with
  | nil =>
    have hf : (k == k') = false := by
      simp only [beq_eq_false_iff_ne, ne_eq]
      exact fun hh => h hh.symm
    simp [assocGet, assocSet, hf]
  | cons hd t ih =>
    obtain ⟨k'', v''⟩ := hd
    by_cases hk : k'' = k
    · subst hk
      have hf : (k'' == k') = false := by
        simp only [beq_eq_false_iff_ne, ne_eq]
        exact fun hh => h hh.symm
      simp [assocGet, assocSet, hf]
    · have hkf : (k'' == k) = false := by simp [hk]
      by_cases hk' : k'' = k'
      · subst hk'
        simp [assocGet, assocSet, hkf]
      · have hk'f : (k'' == k') = false := by simp [hk']
        simp [assocGet, assocSet, hkf, hk'f, ih]

theorem fill_dates_get_ne (today : Int) (c : Change) (d d' : PyDict) (k : String)
    (h : fill_dates today c d = some d')
    (h1 : k ≠ "Start Date") (h2 : k ≠ "End Date") :
    assocGet d' k = assocGet d k := by
  unfold fill_dates at h
  split_ifs at h with hd
  · cases h
    rfl
  · cases hpr : infer_dates_of today (task_desc_of c) (status_of c) with
    | none => rw [hpr] at h; cases h
    | some pr =>
      rw [hpr] at h
      cases h
      rw [assocGet_assocSet_ne _ _ _ _ h2, assocGet_assocSet_ne _ _ _ _ h1]

theorem fill_dates_get_dates (today : Int) (c : Change) (d d' : PyDict) (pr : Int × Int)
    (h : fill_dates today c d = some d')
    (hmiss : (truthyO (assocGet d "Start Date") &&
      truthyO (assocGet d "End Date")) = false)
    (hpr : infer_dates_of today (task_desc_of c) (status_of c) = some pr) :
    assocGet d' "Start Date" = some (PyVal.str (fmtDate pr.1)) ∧
    assocGet d' "End Date" = some (PyVal.str (fmtDate pr.2)) := by
  unfold fill_dates at h
  rw [hmiss, hpr] at h
  simp only [Bool.false_eq_true, if_false] at h
  cases h
  constructor
  · rw [assocGet_assocSet_ne _ _ _ _ (by decide), assocGet_assocSet_self]
  · rw [assocGet_assocSet_self]

theorem fill_effort_get_ne (c : Change) (d d' : PyDict) (k : String)
    (h : fill_effort c d = some d') (hk : k ≠ "Effort") :
    assocGet d' k = assocGet d k := by
  unfold fill_effort at h
  split_ifs at h with hd
  · cases h
    rfl
  · cases hq : estimate_effort_of (task_desc_of c) with
    | none => rw [hq] at h; cases h
    | some q =>
      rw [hq] at h
      cases h
      rw [assocGet_assocSet_ne _ _ _ _ hk]

theorem fill_effort_get_effort (c : Change) (d d' : PyDict) (q : ℚ)
    (h : fill_effort c d = some d')
    (hmiss : truthyO (assocGet d "Effort") = false)
    (hq : estimate_effort_of (task_desc_of c) = some q) :
    assocGet d' "Effort" = some (PyVal.num q) := by
  unfold fill_effort at h
  rw [hmiss, hq] at h
  simp only [Bool.false_eq_true, if_false] at h
  cases h
  rw [assocGet_assocSet_self]

theorem fill_priority_get_ne (d : PyDict) (k : String) (hk : k ≠ "Priority") :
    assocGet (fill_priority d) k = assocGet d k := by
  unfold fill_priority
  split_ifs with hd
  · rfl
  · exact assocGet_assocSet_ne _ _ _ _ hk

theorem validate_one_get_ne (today : Int) (c c' : Change) (k : String)
    (h : validate_one today c = some c')
    (h1 : k ≠ "Start Date") (h2 : k ≠ "End Date")
    (h3 : k ≠ "Effort") (h4 : k ≠ "Priority") :
    assocGet c'.data k = assocGet c.data k := by
  unfold validate_one at h
  cases hd1 : fill_dates today c c.data with
  | none => rw [hd1] at h; cases h
  | some d1 =>
    rw [hd1] at h
    simp only at h
    cases hd2 : fill_effort c d1 with
    | none => rw [hd2] at h; cases h
    | some d2 =>
      rw [hd2] at h
      cases h
      show assocGet (fill_priority d2) k = assocGet c.data k
      rw [fill_priority_get_ne _ _ h4, fill_effort_get_ne _ _ _ _ hd2 h3,
        fill_dates_get_ne _ _ _ _ _ hd1 h1 h2]

theorem validate_one_task (today : Int) (c c' : Change)
    (h : validate_one today c = some c') :
    assocGet c'.data "Task" = assocGet c.data "Task" :=
  validate_one_get_ne today c c' "Task" h (by decide) (by decide) (by decide) (by decide)

theorem validate_one_status (today : Int) (c c' : Change)
    (h : validate_one today c = some c') :
    assocGet c'.data "Status" = assocGet c.data "Status" :=
  validate_one_get_ne today c c' "Status" h (by decide) (by decide) (by decide) (by decide)

theorem validate_changes_members (today : Int) (changes out : List Change)
    (h : validate_changes today changes = some out) :
    (∀ c' ∈ out, ∃ c ∈ changes,
      truthyO (assocGet c.data "Task") = true ∧ validate_one today c = some c') ∧
    out.length =
      (changes.filter (fun c => truthyO (assocGet c.data "Task"))).length := by
  induction changes generalizing out with
  | nil =>
    cases h
    simp
  | cons c rest ih =>
    unfold validate_changes at h
    by_cases hk : truthyO (assocGet c.data "Task") = true
    · rw [if_pos hk] at h
      cases h1 : validate_one today c with
      | none => rw [h1] at h; cases h
      | some c' =>
        rw [h1] at h
        cases h2 : validate_changes today rest with
        | none => rw [h2] at h; cases h
        | some rest' =>
          rw [h2] at h
          cases h
          obtain ⟨ihm, ihl⟩ := ih rest' h2
          constructor
          · intro x hx
            rcases List.mem_cons.mp hx with hx | hx
            · exact ⟨c, List.mem_cons_self c rest, hk, hx ▸ h1⟩
            · obtain ⟨c0, hc0, hc0k, hc0v⟩ := ihm x hx
              exact ⟨c0, List.mem_cons_of_mem c hc0, hc0k, hc0v⟩
          · simp [List.filter, hk, ihl]
    · rw [if_neg hk] at h
      obtain ⟨ihm, ihl⟩ := ih out h
      constructor
      · intro x hx
        obtain ⟨c0, hc0, hc0k, hc0v⟩ := ihm x hx
        exact ⟨c0, List.mem_cons_of_mem c hc0, hc0k, hc0v⟩
      · simpa [List.filter, Bool.of_not_eq_true hk] using ihl

/-- C5: whenever `validate_changes` returns, every change in its output
has a truthy Task value; a change lacking one is dropped and all other
changes are retained (after field filling), so the output corresponds
exactly to the input changes with a non-empty Task. -/
theorem c5_validate_task_filter (today : Int) (changes out : List Change)
    (h : validate_changes today changes = some out) :
    (∀ c' ∈ out, truthyO (assocGet c'.data "Task") = true) ∧
    out.length =
      (changes.filter (fun c => truthyO (assocGet c.data "Task"))).length ∧
    (∀ c' ∈ out, ∃ c ∈ changes,
      truthyO (assocGet c.data "Task") = true ∧ validate_one today c = some c') := by
  obtain ⟨hm, hl⟩ := validate_changes_members today changes out h
  refine ⟨?_, hl, hm⟩
  intro c' hc'
  obtain ⟨c, _, hck, hcv⟩ := hm c' hc'
  rw [validate_one_task today c c' hcv]
  exact hck

/-- C5 witness: a concrete run dropping the task-less change and keeping
the fully-populated one. -/
theorem c5_validate_task_filter_witness :
    truthyO (assocGet docsChange.data "Task") = true := by
  have h := c5_validate_task_filter 0 [tasklessChange, docsChange] [docsChange]
    (by rfl)
  exact h.1 docsChange (List.mem_singleton.mpr rfl)

/-- C6: for every retained change, `validate_changes` auto-fills missing
fields — missing dates are both set from the status/keyword date rule,
missing effort from the effort rule, missing priority to Medium — and
consequently a single Complete change with no keyword cues and no dates,
effort or priority is validated to Start Date = T−1d, End Date = T,
Effort ≤ 1 person-day, and Priority "Medium". -/
theorem c6_validate_autofill (today : Int) (c c' : Change) :
    (validate_changes today [loginChange] = some [loginValidated today]) ∧
    estimate_effort "Today I completed the login module"
      "Today I completed the login module" ≤ 1 ∧
    (validate_one today c = some c' →
      ((truthyO (assocGet c.data "Start Date") &&
          truthyO (assocGet c.data "End Date")) = false →
        ∀ pr, infer_dates_of today (task_desc_of c) (status_of c) = some pr →
          assocGet c'.data "Start Date" = some (PyVal.str (fmtDate pr.1)) ∧
          assocGet c'.data "End Date" = some (PyVal.str (fmtDate pr.2))) ∧
      (truthyO (assocGet c.data "Effort") = false →
        ∀ q, estimate_effort_of (task_desc_of c) = some q →
          assocGet c'.data "Effort" = some (PyVal.num q)) ∧
      (truthyO (assocGet c.data "Priority") = false →
        assocGet c'.data "Priority" = some (PyVal.str "Medium"))) := by
  refine ⟨by rfl, estimate_effort_le_one _ _, ?_⟩
  intro h
  unfold validate_one at h
  cases hd1 : fill_dates today c c.data with
  | none => rw [hd1] at h; cases h
  | some d1 =>
    rw [hd1] at h
    simp only at h
    cases hd2 : fill_effort c d1 with
    | none => rw [hd2] at h; cases h
    | some d2 =>
      rw [hd2] at h
      cases h
      refine ⟨?_, ?_, ?_⟩
      · intro hmiss pr hpr
        obtain ⟨hs, he⟩ := fill_dates_get_dates today c c.data d1 pr hd1 hmiss hpr
        constructor
        · show assocGet (fill_priority d2) "Start Date" = _
          rw [fill_priority_get_ne _ _ (by decide),
            fill_effort_get_ne _ _ _ _ hd2 (by decide), hs]
        · show assocGet (fill_priority d2) "End Date" = _
          rw [fill_priority_get_ne _ _ (by decide),
            fill_effort_get_ne _ _ _ _ hd2 (by decide), he]
      · intro hmiss q hq
        have hd1e : assocGet d1 "Effort" = assocGet c.data "Effort" :=
          fill_dates_get_ne _ _ _ _ _ hd1 (by decide) (by decide)
        show assocGet (fill_priority d2) "Effort" = _
        rw [fill_priority_get_ne _ _ (by decide)]
        exact fill_effort_get_effort c d1 d2 q hd2 (hd1e ▸ hmiss) hq
      · intro hmiss
        have hd2p : assocGet d2 "Priority" = assocGet c.data "Priority" := by
          rw [fill_effort_get_ne _ _ _ _ hd2 (by decide),
            fill_dates_get_ne _ _ _ _ _ hd1 (by decide) (by decide)]
        show assocGet (fill_priority d2) "Priority" = _
        unfold fill_priority
        rw [hd2p, hmiss]
        simp only [Bool.false_eq_true, if_false]
        rw [assocGet_assocSet_self]

/-- C6 witness: the general clauses discharged on the concrete scenario
change at day 0. -/
theorem c6_validate_autofill_witness :
    assocGet (loginExpectedData 0) "Start Date" =
      some (PyVal.str (fmtDate (0 - 1))) ∧
    assocGet (loginExpectedData 0) "Effort" =
      some (PyVal.num (estimate_effort "Today I completed the login module"
        "Today I completed the login module")) ∧
    assocGet (loginExpectedData 0) "Priority" = some (PyVal.str "Medium") := by
  have h := (c6_validate_autofill 0 loginChange (loginValidated 0)).2.2 (by rfl)
  refine ⟨(h.1 (by rfl) ((0 - 1 : Int), (0 : Int)) (by rfl)).1, ?_, h.2.2 (by rfl)⟩
  exact h.2.1 (by rfl) (estimate_effort "Today I completed the login module"
    "Today I completed the login module") (by rfl)

/-- C10 (implicit): `validate_changes` never adds, fills or alters the
Status field — each retained change's Status after validation equals its
Status before; and when the Status key is absent the date inference uses
the Upcoming rule (Start = T+1d, End = T+5d) while Status stays unset. -/
theorem c10_status_untouched (today : Int) :
    (∀ c c' : Change, validate_one today c = some c' →
      assocGet c'.data "Status" = assocGet c.data "Status") ∧
    (∀ changes out : List Change, validate_changes today changes = some out →
      out.map (fun x => assocGet x.data "Status") =
        (changes.filter (fun x => truthyO (assocGet x.data "Task"))).map
          (fun x => assocGet x.data "Status")) ∧
    (∀ c c' : Change, validate_one today c = some c' →
      assocGet c.data "Status" = none →
      (truthyO (assocGet c.data "Start Date") &&
        truthyO (assocGet c.data "End Date")) = false →
      ∀ s, task_desc_of c = PyVal.str s →
        assocGet c'.data "Start Date" = some (PyVal.str (fmtDate (today + 1))) ∧
        assocGet c'.data "End Date" = some (PyVal.str (fmtDate (today + 5)))) := by
  refine ⟨validate_one_status today, ?_, ?_⟩
  · intro changes
    induction changes with
    | nil =>
      intro out h
      cases h
      simp
    | cons c rest ih =>
      intro out h
      unfold validate_changes at h
      by_cases hk : truthyO (assocGet c.data "Task") = true
      · rw [if_pos hk] at h
        cases h1 : validate_one today c with
        | none => rw [h1] at h; cases h
        | some c' =>
          rw [h1] at h
          cases h2 : validate_changes today rest with
          | none => rw [h2] at h; cases h
          | some rest' =>
            rw [h2] at h
            cases h
            simp only [List.map_cons, List.filter, hk, ih rest' h2,
              validate_one_status today c c' h1]
      · rw [if_neg hk] at h
        simpa [List.filter, Bool.of_not_eq_true hk] using ih out h
  · intro c c' h habs hmiss s hs
    have hpr : infer_dates_of today (task_desc_of c) (status_of c) =
        some (today + 1, today + 5) := by
      rw [hs]
      show some (infer_dates s (statusKey (status_of c)) today) = _
      unfold status_of
      rw [habs]
      rfl
    unfold validate_one at h
    cases hd1 : fill_dates today c c.data with
    | none => rw [hd1] at h; cases h
    | some d1 =>
      rw [hd1] at h
      simp only at h
      cases hd2 : fill_effort c d1 with
      | none => rw [hd2] at h; cases h
      | some d2 =>
        rw [hd2] at h
        cases h
        obtain ⟨hS, hE⟩ :=
          fill_dates_get_dates today c c.data d1 (today + 1, today + 5) hd1 hmiss hpr
        constructor
        · show assocGet (fill_priority d2) "Start Date" = _
          rw [fill_priority_get_ne _ _ (by decide),
            fill_effort_get_ne _ _ _ _ hd2 (by decide), hS]
        · show assocGet (fill_priority d2) "End Date" = _
          rw [fill_priority_get_ne _ _ (by decide),
            fill_effort_get_ne _ _ _ _ hd2 (by decide), hE]

/-- C10 witness: the Status-free change keeps Status unset and gets the
Upcoming dates at day 0. -/
theorem c10_status_untouched_witness :
    assocGet sprintValidatedData "Status" = none := by
  have h := (c10_status_untouched 0).1 sprintChange
    { action := "create", row_id := none, data := sprintValidatedData,
      reasoning := "" } (by rfl)
  exact h.trans (by rfl)

/-- C1: evaluation of the bold-run renderer at the well-formed input
`"**bold**"` (two `**` markers).  Instead of the single bold run "bold"
the specification describes, the mis-escaped pattern `\**` produces
empty bold runs for the marker characters themselves and emits the inner
text as plain runs character by character — the final one, "d**",
retaining marker characters.  This contradicts the function's own
docstring ("parsing basic markdown like **bold**"), so the code, not the
claim, is wrong. -/
theorem c1_bold_run_eval :
    add_run_with_markdown "**bold**" =
      [{ bold := false, text := "" }, { bold := true, text := "" },
       { bold := false, text := "" }, { bold := false, text := "" },
       { bold := false, text := "" }, { bold := false, text := "b" },
       { bold := false, text := "" }, { bold := false, text := "" },
       { bold := false, text := "" }, { bold := false, text := "o" },
       { bold := false, text := "" }, { bold := false, text := "" },
       { bold := false, text := "" }, { bold := false, text := "l" },
       { bold := false, text := "" }, { bold := false, text := "" },
       { bold := false, text := "" }, { bold := false, text := "d**" },
       { bold := false, text := "" }, { bold := false, text := "" },
       { bold := false, text := "" }] ∧
    ({ bold := true, text := "bold" } : Run) ∉ add_run_with_markdown "**bold**" := by
  constructor
  · rfl
  · decide

theorem strip_hash_count (s : String) :
    s.length - (pyLstripSet ['#'] s).length = leadingHashes s := by
  have hpred : (fun c => (['#'] : List Char).any (fun x => x == c)) =
      (fun c : Char => c == '#') := by
    funext c
    by_cases hc : c = '#'
    · subst hc; rfl
    · have h1 : (c == '#') = false := by simp [hc]
      have h2 : (('#' : Char) == c) = false := by simp [Ne.symm hc]
      simp [List.any, h1, h2]
  unfold pyLstripSet leadingHashes
  rw [hpred]
  show s.toList.length - (s.toList.dropWhile (fun c : Char => c == '#')).length =
    (s.toList.takeWhile (fun c : Char => c == '#')).length
  have hsplit := congrArg List.length
    (List.takeWhile_append_dropWhile (p := fun c : Char => c == '#') (l := s.toList))
  rw [List.length_append] at hsplit
  omega

/-- C7: rendering a document from the single heading line "# Title"
yields exactly one content heading, "Title" (hash marks stripped,
whitespace trimmed) at level 1; and in general every heading line is
emitted at the level given by its count of leading `#` characters capped
at 4. -/
theorem c7_heading_levels (t line : String)
    (h : strLeads "#" (pyStrip line) = true) :
    generate_document_from_markdown t "# Title" =
      [DocElem.heading t 0, DocElem.heading "Title" 1] ∧
    classify_line line =
      [DocElem.heading (pyStrip (pyLstripSet ['#', ' '] (pyStrip line)))
        (pyMinNat (leadingHashes (pyStrip line)) 4)] := by
  constructor
  · rfl
  · unfold classify_line
    dsimp only
    split_ifs
    rw [strip_hash_count]

/-- C7 witness: a five-hash heading line is emitted as text "Deep" at
the capped level 4. -/
theorem c7_heading_levels_witness :
    classify_line " ##### Deep  " = [DocElem.heading "Deep" 4] := by
  have h2 := (c7_heading_levels "T" " ##### Deep  " (by rfl)).2
  rw [h2]
  rfl

/-- C8: with no live spreadsheet connection (worksheet `none`),
`get_development_mode_status` reports true and `write_changes_to_sheet`
returns success for every change list, leaves the manager state exactly
as it was, and prints only the development preview of the changes. -/
theorem c8_development_mode (m : SheetsState) (changes : List Change)
    (existing_data : List PyDict) (h : m.worksheet = none) :
    get_development_mode_status m = true ∧
    (write_changes_to_sheet m changes existing_data).1 = true ∧
    (write_changes_to_sheet m changes existing_data).2.1 = m ∧
    (write_changes_to_sheet m changes existing_data).2.2 =
      "Google Sheets not available. Changes would be applied to:" ::
        preview_csv_changes changes := by
  cases m with
  | mk w =>
    cases h
    exact ⟨rfl, rfl, rfl, rfl⟩

/-- C8 witness: the development-mode manager succeeds on a concrete
change list without touching the (absent) sheet. -/
theorem c8_development_mode_witness :
    (write_changes_to_sheet { worksheet := none } [docsChange] []).1 = true ∧
    (write_changes_to_sheet { worksheet := none } [docsChange] []).2.1 =
      { worksheet := none } := by
  have h := c8_development_mode { worksheet := none } [docsChange] [] rfl
  exact ⟨h.2.1, h.2.2.1⟩

/-- C9: constructing either agent fails with an error exactly when none
of its recognized provider keys is set (to a non-empty value); otherwise
the first available provider in the fixed priority order is chosen —
Google, OpenAI, Groq for SheetsAgent and OpenAI, Groq for
ResearchAgent. -/
theorem c9_provider_selection (google openai groq : Option String) :
    (isErr (sheets_agent_init google openai groq) =
      (!truthyEnv google && !truthyEnv openai && !truthyEnv groq)) ∧
    (isErr (research_agent_init openai groq) =
      (!truthyEnv openai && !truthyEnv groq)) ∧
    (truthyEnv google = true →
      sheets_agent_init google openai groq =
        Except.ok { model_name := "gemini/gemini-2.5-pro", api_key := google.getD "" }) ∧
    (truthyEnv google = false → truthyEnv openai = true →
      sheets_agent_init google openai groq =
        Except.ok { model_name := "gpt-4o-mini", api_key := openai.getD "" }) ∧
    (truthyEnv google = false → truthyEnv openai = false → truthyEnv groq = true →
      sheets_agent_init google openai groq =
        Except.ok { model_name := "groq/llama3-8b-8192", api_key := groq.getD "" }) ∧
    (truthyEnv openai = true →
      research_agent_init openai groq =
        Except.ok { model_name := "gpt-4o-mini", api_key := openai.getD "" }) ∧
    (truthyEnv openai = false → truthyEnv groq = true →
      research_agent_init openai groq =
        Except.ok { model_name := "groq/llama3-8b-8192", api_key := groq.getD "" }) := by
  unfold sheets_agent_init research_agent_init
  cases hg : truthyEnv google <;> cases ho : truthyEnv openai <;>
    cases hq : truthyEnv groq <;> simp [isErr]

/-- C9 witness: with a Google key set and a Groq key set, SheetsAgent
picks Gemini and ResearchAgent falls through to Groq. -/
theorem c9_provider_selection_witness :
    sheets_agent_init (some "gk") none (some "qk") =
      Except.ok { model_name := "gemini/gemini-2.5-pro", api_key := "gk" } ∧
    research_agent_init none (some "qk") =
      Except.ok { model_name := "groq/llama3-8b-8192", api_key := "qk" } := by
  have h := c9_provider_selection (some "gk") none (some "qk")
  exact ⟨h.2.2.1 (by rfl), h.2.2.2.2.2.2 (by rfl) (by rfl)⟩

/-- C2 counterexample: the response `{"a": true}` yields a valid JSON
object that lacks the "changes" key, yet `parse_daily_updates` does not
raise — it returns the empty list (the code uses
`changes_data.get("changes", [])`), contradicting the claim's
"raises ... or the required key is absent". -/
theorem c2_counterexample :
    json_loads (candidate_json_text "\x7b\"a\": true\x7d") =
      some (Json.obj [("a", Json.bool true)]) ∧
    assocGet [("a", Json.bool true)] "changes" = none ∧
    parse_daily_updates "\x7b\"a\": true\x7d" = Except.ok (Json.arr []) := by
  refine ⟨rfl, rfl, rfl⟩

/-- C2 (amended): `parse_daily_updates` raises exactly when no valid
JSON object is recoverable from the candidate text (fences stripped,
brace block extracted); when an object is recovered it never raises: it
returns the value under "changes", or the empty list when that key is
absent. -/
theorem c2_parse_behavior (resp : String) :
    (isErr (parse_daily_updates resp) =
      (objOf (json_loads (candidate_json_text resp))).isNone) ∧
    (∀ kvs, json_loads (candidate_json_text resp) = some (Json.obj kvs) →
      parse_daily_updates resp =
        Except.ok ((assocGet kvs "changes").getD (Json.arr []))) ∧
    (∀ kvs, json_loads (candidate_json_text resp) = some (Json.obj kvs) →
      assocGet kvs "changes" = none →
      parse_daily_updates resp = Except.ok (Json.arr [])) := by
  unfold parse_daily_updates objOf
  cases h : json_loads (candidate_json_text resp) with
  | none => simp [isErr]
  | some v =>
    cases v <;> simp [isErr]
    simp_all [Option.getD]

/-- C2 witness: the amended theorem applied to the concrete response
`{}`. -/
theorem c2_parse_behavior_witness :
    parse_daily_updates "\x7b\x7d" = Except.ok (Json.arr []) :=
  (c2_parse_behavior "\x7b\x7d").2.2 [] (by rfl) (by rfl)
